import Mathlib

/-!
Shallow embedding of the student-enrollment domain model (`models.py`,
driver scenario in `main.py`).

Conventions of the embedding:
* Clock times (`datetime.time`) become minutes after midnight (`Nat`);
  `datetime.time` ordering is the numeric order of those minutes.
* Python `int` credits become `Int`.
* Python object identity (the default `==` on classes without `__eq__`,
  which is what `enrollment.course == course`, `prereq not in
  self.approved_courses` and `course not in self.approved_courses` use)
  is modelled by a dedicated identity field `cid : Nat` on `Course`:
  distinct allocations carry distinct identities, and `refEq` compares
  identities.  This is the arena/handle reading of reference equality.
* The mutating methods `enroll_in` and `pass_course` become functions
  `Student → Course → Student` returning the updated student; the
  `print` calls in `enroll_in` are I/O only and carry the message already
  computed by `can_enroll_in`, so outcomes are stated via
  `can_enroll_in`.
* The field `stop` embeds the Python attribute `end` (a Lean keyword).
-/

set_option maxRecDepth 4000

/-- `class Schedule`: a weekly slot (day label, start time, end time). -/
structure Schedule where
  day : String
  start : Nat
  stop : Nat
deriving Repr, DecidableEq

/-- `Schedule.overlaps_with`: same-day check, then interval overlap
`not (self.end <= other.start or self.start >= other.end)`. -/
def Schedule.overlaps_with (a b : Schedule) : Bool :=
  if a.day ≠ b.day then false
  else decide (¬ (a.stop ≤ b.start ∨ a.start ≥ b.stop))

/-- `class Course`: catalog entry.  `cid` is the object identity (see
module comment); `prerequisites` are shared references to other courses,
hence a nested inductive. -/
inductive Course : Type where
  | mk (cid : Nat) (code : String) (name : String) (credits : Int)
       (semester : Nat) (prerequisites : List Course)
       (schedules : List Schedule) : Course

def Course.cid : Course → Nat
  | .mk i _ _ _ _ _ _ => i

def Course.code : Course → String
  | .mk _ c _ _ _ _ _ => c

def Course.name : Course → String
  | .mk _ _ n _ _ _ _ => n

def Course.credits : Course → Int
  | .mk _ _ _ cr _ _ _ => cr

def Course.semester : Course → Nat
  | .mk _ _ _ _ sem _ _ => sem

def Course.prerequisites : Course → List Course
  | .mk _ _ _ _ _ ps _ => ps

def Course.schedules : Course → List Schedule
  | .mk _ _ _ _ _ _ ss => ss

/-- Python reference equality (`==` falling back to `is`) on courses. -/
def refEq (a b : Course) : Bool := a.cid == b.cid

/-- `class Enrollment`: binds (a student to) one course.  The `student`
back-pointer of the source is never read by any method, so it is not part
of the state. -/
structure Enrollment where
  course : Course

/-- `Enrollment.overlaps_with`: cross-product slot check with early
`return True` — i.e. `any` over both schedule lists. -/
def Enrollment.overlaps_with (e other : Enrollment) : Bool :=
  e.course.schedules.any fun s1 =>
    other.course.schedules.any fun s2 => s1.overlaps_with s2

/-- `class Student`: name, passed-course history, active enrollments. -/
structure Student where
  name : String
  approved_courses : List Course
  enrollments : List Enrollment

/-- `Student.__init__(name)`: fresh student with empty lists. -/
def Student.mkFresh (n : String) : Student :=
  { name := n, approved_courses := [], enrollments := [] }

/-- `Student.total_credits`: sum of credits over active enrollments. -/
def Student.total_credits (s : Student) : Int :=
  (s.enrollments.map fun e => e.course.credits).sum

/-- `Student.can_enroll_in`: the four-rule eligibility engine, in source
order (already-enrolled, prerequisites, credit limit, schedule overlap),
short-circuiting at the first failure.  The prerequisite loop with early
`return` is `List.find?` of the first prerequisite not reference-present
in `approved_courses`. -/
def Student.can_enroll_in (s : Student) (course : Course) : Bool × String :=
  if s.enrollments.any (fun e => refEq e.course course) then
    (false, "You are already enrolled in this course.")
  else
    match course.prerequisites.find?
        (fun p => ! s.approved_courses.any (fun a => refEq p a)) with
    | some p => (false, "Missing prerequisite: " ++ p.code)
    | none =>
      if s.total_credits + course.credits > 24 then
        (false, "Exceeds credit limit.")
      else if s.enrollments.any
          (fun e => (Enrollment.mk course).overlaps_with e) then
        (false, "Schedule conflict with another course.")
      else
        (true, "Enrollment valid.")

/-- `Student.enroll_in`: on a positive `can_enroll_in` verdict append a
new `Enrollment`; otherwise leave the state unchanged (the source only
prints the failure message). -/
def Student.enroll_in (s : Student) (course : Course) : Student :=
  if (s.can_enroll_in course).1 then
    { s with enrollments := s.enrollments ++ [Enrollment.mk course] }
  else
    s

/-- `Student.pass_course`: append to `approved_courses` unless already
reference-present. -/
def Student.pass_course (s : Student) (course : Course) : Student :=
  if s.approved_courses.any (fun a => refEq course a) then
    s
  else
    { s with approved_courses := s.approved_courses ++ [course] }

/-- Iterated `pass_course` with the same course reference. -/
def passTimes (s : Student) (c : Course) : Nat → Student
  | 0 => s
  | n + 1 => (passTimes s c n).pass_course c

/-- An observable operation on a student: one `enroll_in` or one
`pass_course` call. -/
inductive Op where
  | enroll (c : Course)
  | passCourse (c : Course)

/-- Run a sequence of `enroll_in` / `pass_course` calls. -/
def runOps (s : Student) : List Op → Student
  | [] => s
  | (Op.enroll c) :: rest => runOps (s.enroll_in c) rest
  | (Op.passCourse c) :: rest => runOps (s.pass_course c) rest

/-- The driver scenario's catalog (`main.py`): `prog1` = INF101,
4 credits, Monday 08:00–10:00. -/
def prog1 : Course :=
  .mk 1 "INF101" "Programming I" 4 1 []
    [{ day := "Monday", start := 480, stop := 600 }]

/-- `prog2` = INF201, 4 credits, prerequisite `prog1`,
Tuesday 10:00–12:00. -/
def prog2 : Course :=
  .mk 2 "INF201" "Programming II" 4 2 [prog1]
    [{ day := "Tuesday", start := 600, stop := 720 }]

/-- `mat1` = MAT101, 6 credits, Monday 09:30–11:30 (overlaps `prog1`). -/
def mat1 : Course :=
  .mk 3 "MAT101" "Mathematics I" 6 1 []
    [{ day := "Monday", start := 570, stop := 690 }]

/-- Driver state after `enroll_in(prog1)` on the fresh student. -/
def scenarioS1 : Student := (Student.mkFresh "John Doe").enroll_in prog1

/-- Driver state after the further `enroll_in(prog2)` and
`enroll_in(mat1)` attempts (both fail, so the state is `scenarioS1`). -/
def scenarioS3 : Student := (scenarioS1.enroll_in prog2).enroll_in mat1

/-- Driver state after `pass_course(prog1)`. -/
def scenarioS4 : Student := scenarioS3.pass_course prog1

/-- A 30-credit course with no prerequisites and no schedule, used to
exercise the credit-limit rule. -/
def bigCourse : Course := .mk 4 "BIG400" "Big Course" 30 1 [] []

/-- A course with an empty schedule list, used to exercise the
enrollment-overlap rule. -/
def noSched : Course := .mk 6 "EMP100" "Empty Schedule" 1 1 [] []

theorem refEq_self (c : Course) : refEq c c = true := by
  simp [refEq]

theorem pass_course_mem (s : Student) (c : Course) :
    ((s.pass_course c).approved_courses.any (fun a => refEq c a)) = true := by
  unfold Student.pass_course
  split
  · assumption
  · simp [List.any_append, refEq_self]

theorem pass_course_idem (s : Student) (c : Course) :
    (s.pass_course c).pass_course c = s.pass_course c := by
  have h := pass_course_mem s c
  conv_lhs => rw [Student.pass_course]
  rw [if_pos h]

theorem pass_course_enrollments (s : Student) (c : Course) :
    (s.pass_course c).enrollments = s.enrollments := by
  unfold Student.pass_course
  split <;> rfl

theorem find_first_get {α : Type} (p : α → Bool) :
    ∀ (l : List α) (i : Fin l.length),
      (∀ j : Fin l.length, j.val < i.val → p (l.get j) = false) →
      p (l.get i) = true → l.find? p = some (l.get i) := by
  intro l
  induction l with
  | nil => intro i; exact absurd i.isLt (by simp)
  | cons a t ih =>
    intro i hbef hi
    match i with
    | ⟨0, _⟩ => exact List.find?_cons_of_pos t hi
    | ⟨k + 1, hk⟩ =>
      have ha : p a = false := hbef ⟨0, Nat.succ_pos _⟩ (Nat.zero_lt_succ k)
      rw [List.find?_cons_of_neg t (by simp [ha])]
      exact ih ⟨k, Nat.lt_of_succ_lt_succ hk⟩
        (fun j hj => hbef ⟨j.val + 1, Nat.succ_lt_succ j.isLt⟩
          (Nat.succ_lt_succ hj)) hi

theorem can_enroll_in_eval (s : Student) (c : Course)
    (h1 : s.enrollments.any (fun e => refEq e.course c) = false)
    (hfind : c.prerequisites.find?
      (fun p => ! s.approved_courses.any (fun a => refEq p a)) = none) :
    s.can_enroll_in c =
      if s.total_credits + c.credits > 24 then
        (false, "Exceeds credit limit.")
      else if s.enrollments.any
          (fun e => (Enrollment.mk c).overlaps_with e) then
        (false, "Schedule conflict with another course.")
      else
        (true, "Enrollment valid.") := by
  unfold Student.can_enroll_in
  rw [if_neg (by simp [h1]), hfind]

theorem can_enroll_true_bound (s : Student) (c : Course)
    (h : (s.can_enroll_in c).1 = true) :
    s.total_credits + c.credits ≤ 24 := by
  unfold Student.can_enroll_in at h
  split at h
  · simp at h
  · split at h
    · simp at h
    · split at h
      · simp at h
      · split at h
        · simp at h
        · omega

theorem enroll_in_bound (s : Student) (c : Course)
    (h : s.total_credits ≤ 24) : (s.enroll_in c).total_credits ≤ 24 := by
  unfold Student.enroll_in
  split
  · rename_i hcan
    have hb := can_enroll_true_bound s c hcan
    simpa [Student.total_credits] using hb
  · exact h

theorem runOps_bound (ops : List Op) :
    ∀ s : Student, s.total_credits ≤ 24 →
      (runOps s ops).total_credits ≤ 24 := by
  induction ops with
  | nil => intro s h; exact h
  | cons op rest ih =>
    intro s h
    cases op with
    | enroll c => exact ih _ (enroll_in_bound s c h)
    | passCourse c =>
      apply ih
      show (s.pass_course c).total_credits ≤ 24
      unfold Student.total_credits
      rw [pass_course_enrollments]
      exact h

/-- Claim C1: the driver scenario of `main.py`.  Enrolling in `prog1`
succeeds, `prog2` then fails with the missing-prerequisite message,
`mat1` fails with the schedule-conflict message; after
`pass_course(prog1)` the student still has `prog1` as the sole active
enrollment, and — contrary to the claim and to the source's own
`# Should succeed now` comment — the second `enroll_in(mat1)` STILL
fails with the schedule-conflict message and leaves the state unchanged,
because `pass_course` does not remove `prog1`'s active enrollment and
`mat1` still overlaps it. -/
theorem c1_driver_scenario :
    (Student.mkFresh "John Doe").can_enroll_in prog1
      = (true, "Enrollment valid.")
  ∧ scenarioS1.can_enroll_in prog2 = (false, "Missing prerequisite: INF101")
  ∧ (scenarioS1.enroll_in prog2).can_enroll_in mat1 =
      (false, "Schedule conflict with another course.")
  ∧ scenarioS4.enrollments = [Enrollment.mk prog1]
  ∧ scenarioS4.can_enroll_in mat1 =
      (false, "Schedule conflict with another course.")
  ∧ scenarioS4.enroll_in mat1 = scenarioS4 := by
  refine ⟨rfl, rfl, rfl, rfl, rfl, rfl⟩

/-- Claim C2: starting from a freshly constructed student, after any
sequence of `enroll_in` and `pass_course` calls the sum of credits over
the active enrollments never exceeds 24. -/
theorem c2_credit_invariant (nm : String) (ops : List Op) :
    (runOps (Student.mkFresh nm) ops).total_credits ≤ 24 :=
  runOps_bound ops (Student.mkFresh nm)
    (by simp [Student.mkFresh, Student.total_credits])

/-- Claim C3: rule-order and short-circuiting of `can_enroll_in`.  If the
candidate course is reference-equal to some active enrollment's course,
the result is the already-enrolled failure regardless of anything else;
otherwise, if position `i` holds the first prerequisite that is not
reference-present in `approved_courses`, the result names exactly that
prerequisite's code. -/
theorem c3_rule_order (s : Student) (c : Course) :
    (s.enrollments.any (fun e => refEq e.course c) = true →
      s.can_enroll_in c = (false, "You are already enrolled in this course."))
  ∧ (s.enrollments.any (fun e => refEq e.course c) = false →
      ∀ i : Fin c.prerequisites.length,
        (∀ j : Fin c.prerequisites.length, j.val < i.val →
          s.approved_courses.any
            (fun a => refEq (c.prerequisites.get j) a) = true) →
        s.approved_courses.any
          (fun a => refEq (c.prerequisites.get i) a) = false →
        s.can_enroll_in c =
          (false, "Missing prerequisite: " ++ (c.prerequisites.get i).code)) := by
  constructor
  · intro h
    unfold Student.can_enroll_in
    rw [if_pos h]
  · intro h i hbef hi
    have hfind : c.prerequisites.find?
        (fun p => ! s.approved_courses.any (fun a => refEq p a))
        = some (c.prerequisites.get i) :=
      find_first_get _ c.prerequisites i
        (fun j hj => by rw [hbef j hj]; rfl) (by rw [hi]; rfl)
    unfold Student.can_enroll_in
    rw [if_neg (by simp [h]), hfind]

/-- Witness for C3: a fresh student attempting `prog2` (prerequisite
`prog1` not passed) is refused with the message naming `INF101`. -/
theorem c3_witness :
    (Student.mkFresh "W3").can_enroll_in prog2
      = (false, "Missing prerequisite: INF101") :=
  (c3_rule_order (Student.mkFresh "W3") prog2).2 rfl
    ⟨0, Nat.succ_pos 0⟩ (fun j hj => absurd hj (Nat.not_lt_zero j.val)) rfl

/-- Claim C4: characterisation of slot overlap.  Different day labels
never overlap; on equal days the result is true iff
`¬ (a.end ≤ b.start ∨ a.start ≥ b.end)`; in particular back-to-back
slots (`a.end = b.start`) on the same day do not overlap. -/
theorem c4_slot_overlap (a b : Schedule) :
    (a.day ≠ b.day → a.overlaps_with b = false)
  ∧ (a.day = b.day →
      (a.overlaps_with b = true ↔ ¬ (a.stop ≤ b.start ∨ a.start ≥ b.stop)))
  ∧ (a.day = b.day → a.stop = b.start → a.overlaps_with b = false) := by
  refine ⟨?_, ?_, ?_⟩
  · intro h; simp [Schedule.overlaps_with, h]
  · intro h; simp [Schedule.overlaps_with, h]
  · intro h he; simp [Schedule.overlaps_with, h, he]

/-- Witness for C4: Monday 08:00–10:00 and Monday 10:00–12:00 are
adjacent and do not overlap. -/
theorem c4_witness :
    Schedule.overlaps_with { day := "Monday", start := 480, stop := 600 }
      { day := "Monday", start := 600, stop := 720 } = false :=
  (c4_slot_overlap { day := "Monday", start := 480, stop := 600 }
    { day := "Monday", start := 600, stop := 720 }).2.2 rfl rfl

/-- Claim C5: given the already-enrolled and prerequisite rules pass,
`can_enroll_in` fails with the credit-limit message iff
`total_credits + course.credits > 24` (strictly); a resulting total of
exactly 24 passes the credit rule. -/
theorem c5_credit_rule (s : Student) (c : Course)
    (h1 : s.enrollments.any (fun e => refEq e.course c) = false)
    (h2 : ∀ p ∈ c.prerequisites,
      s.approved_courses.any (fun a => refEq p a) = true) :
    (s.can_enroll_in c = (false, "Exceeds credit limit.")) ↔
      s.total_credits + c.credits > 24 := by
  have hfind : c.prerequisites.find?
      (fun p => ! s.approved_courses.any (fun a => refEq p a)) = none := by
    rw [List.find?_eq_none]
    intro p hp
    simp [h2 p hp]
  rw [can_enroll_in_eval s c h1 hfind]
  by_cases hcr : s.total_credits + c.credits > 24
  · rw [if_pos hcr]
    simp [hcr]
  · rw [if_neg hcr]
    simp only [hcr, iff_false]
    intro he
    split at he
    · exact absurd (congrArg Prod.snd he) (by decide)
    · exact absurd (congrArg Prod.fst he) (by decide)

/-- Witness for C5: a fresh student attempting the 30-credit course is
refused with the credit-limit message. -/
theorem c5_witness :
    (Student.mkFresh "W5").can_enroll_in bigCourse
      = (false, "Exceeds credit limit.") :=
  (c5_credit_rule (Student.mkFresh "W5") bigCourse rfl
    (fun p hp => absurd hp (List.not_mem_nil p))).mpr (by decide)

/-- Claim C6: enrollment overlap holds iff some slot of the first
course overlaps some slot of the second (cross-product), and an
enrollment in a course with an empty schedule list never overlaps in
either argument position. -/
theorem c6_enrollment_overlap (e1 e2 : Enrollment) :
    (e1.overlaps_with e2 = true ↔
      ∃ s1 ∈ e1.course.schedules, ∃ s2 ∈ e2.course.schedules,
        s1.overlaps_with s2 = true)
  ∧ (e1.course.schedules = [] →
      e1.overlaps_with e2 = false ∧ e2.overlaps_with e1 = false) := by
  constructor
  · simp [Enrollment.overlaps_with, List.any_eq_true]
  · intro h
    constructor <;> simp [Enrollment.overlaps_with, h]

/-- Witness for C6: the schedule-free course overlaps nothing, in either
position, against `prog1`. -/
theorem c6_witness :
    (Enrollment.mk noSched).overlaps_with (Enrollment.mk prog1) = false
  ∧ (Enrollment.mk prog1).overlaps_with (Enrollment.mk noSched) = false :=
  (c6_enrollment_overlap (Enrollment.mk noSched) (Enrollment.mk prog1)).2 rfl

/-- Claim C7: `enroll_in` is a no-op on a negative verdict and otherwise
appends exactly one new enrollment for the course at the end of the
list, leaving every other field unchanged. -/
theorem c7_enroll_frame (s : Student) (c : Course) :
    ((s.can_enroll_in c).1 = false → s.enroll_in c = s)
  ∧ ((s.can_enroll_in c).1 = true →
      s.enroll_in c =
        { s with enrollments := s.enrollments ++ [Enrollment.mk c] }) := by
  constructor <;> intro h <;> simp [Student.enroll_in, h]

/-- Witness for C7: a fresh student successfully enrolling in `prog1`
gets exactly the one-enrollment state. -/
theorem c7_witness :
    (Student.mkFresh "W7").enroll_in prog1 =
      { name := "W7", approved_courses := [],
        enrollments := [Enrollment.mk prog1] } :=
  (c7_enroll_frame (Student.mkFresh "W7") prog1).2 (by decide)

/-- Claim C8: `pass_course` is idempotent — `N ≥ 1` calls with the same
course reference produce the same state as one call; the first call
appends the course exactly when it is not already reference-present, and
a call with the course already present changes nothing. -/
theorem c8_pass_idempotent (s : Student) (c : Course) :
    (∀ n : Nat, passTimes s c (n + 1) = s.pass_course c)
  ∧ (s.approved_courses.any (fun a => refEq c a) = false →
      (s.pass_course c).approved_courses = s.approved_courses ++ [c])
  ∧ (s.approved_courses.any (fun a => refEq c a) = true →
      s.pass_course c = s) := by
  refine ⟨?_, ?_, ?_⟩
  · intro n
    induction n with
    | zero => rfl
    | succ k ih =>
      show (passTimes s c (k + 1)).pass_course c = s.pass_course c
      rw [ih]
      exact pass_course_idem s c
  · intro h
    unfold Student.pass_course
    rw [if_neg (by simp [h])]
  · intro h
    unfold Student.pass_course
    rw [if_pos h]

/-- Witness for C8: passing `prog1` on a fresh student appends it to the
approved list. -/
theorem c8_witness :
    ((Student.mkFresh "W8").pass_course prog1).approved_courses = [prog1] :=
  (c8_pass_idempotent (Student.mkFresh "W8") prog1).2.1 rfl

/-- Claim C9: slot overlap is symmetric for every pair of slots, any
days and any times. -/
theorem c9_overlap_symmetric (a b : Schedule) :
    a.overlaps_with b = b.overlaps_with a := by
  unfold Schedule.overlaps_with
  by_cases h : a.day = b.day
  · rw [if_neg (by simp [h]), if_neg (by simp [h])]
    rw [decide_eq_decide]
    omega
  · rw [if_pos h, if_pos (fun hh => h hh.symm)]

/-- Claim C10: frame conditions — `enroll_in` leaves `approved_courses`
and `name` unchanged, `pass_course` leaves `enrollments` and `name`
unchanged (courses are immutable values in the embedding, so no
operation can alter a `Course`). -/
theorem c10_frame (s : Student) (c : Course) :
    ((s.enroll_in c).approved_courses = s.approved_courses
      ∧ (s.enroll_in c).name = s.name)
  ∧ ((s.pass_course c).enrollments = s.enrollments
      ∧ (s.pass_course c).name = s.name) := by
  constructor
  · unfold Student.enroll_in; split <;> simp
  · unfold Student.pass_course; split <;> simp
